import Mathlib

/-!
Shallow embedding of the account-management backend (src/main.py).

The repository ships a single FastAPI module `main.py`; the `database`
module (the handle `db` and `create_document`) and the `schemas` module
(the `Account` record) are imported there but absent from the sources,
so those two pieces are modelled from the specification (sections 3 and
4.1).  Everything else below is translated directly from `main.py`:
pure string normalization, the signup and login handlers, and the
`/test` diagnostics handler.  External effects are made explicit:

- the Mongo collection `account` is a `List Doc` traversed in natural
  order by `find_one`-style queries;
- the process-wide handle `db` is `Option (List Doc)` (`none` models
  `db is None`);
- the store-assigned identifier of an insert is an opaque `Nat` passed
  in explicitly (`newId`);
- the bcrypt context `pwd_context` from the external `passlib` library
  is an abstract pair of functions `hash` / `verify`;
- JSON response bodies are association lists of `JValue`s, mirroring
  the Python dict literals field by field;
- raising `HTTPException` is returning `Except.error` carrying the
  status code and detail.

Python `str.strip` / `str.lower` are modelled character-wise by
`py_strip` / `py_lower` below (ASCII case mapping, the whitespace
classes agreeing on the inputs the claims mention); pydantic
validation of `EmailStr` happens before the handler body and is not
modelled.
-/

/-- JSON-like values appearing in response bodies. -/
inductive JValue where
  | s : String → JValue
  | b : Bool → JValue
  | null : JValue
  deriving DecidableEq, Repr

/-- A JSON object: the ordered field list of a Python dict literal. -/
abbrev JObject := List (String × JValue)

/-- An HTTP error response, as raised by `HTTPException(status_code, detail)`. -/
structure HTTPError where
  status_code : Nat
  detail : String
  deriving DecidableEq, Repr

/-- A document stored in the `account` collection.  Reads are
schema-less (`dict.get`), so every field other than the store-assigned
`_id` is optional. -/
structure Doc where
  _id : Nat
  name : Option String
  email : Option String
  password_hash : Option String
  avatar_url : Option String
  onboarded : Option Bool
  deriving DecidableEq, Repr

/-- Modelled from the spec: the `Account` record from the missing
`schemas` module, "the shape of a persisted account record (name,
email, password hash, avatar URL, onboarding flag)" (section 3). -/
structure Account where
  name : String
  email : String
  password_hash : String
  avatar_url : Option String
  onboarded : Bool
  deriving DecidableEq, Repr

/-- The external `passlib` `CryptContext`: an abstract one-way hash and
its verification function. -/
structure CryptContext where
  hash : String → String
  verify : String → String → Bool

/-- Request body of `POST /auth/signup` (class `SignupPayload`). -/
structure SignupPayload where
  name : String
  email : String
  password : String
  avatar_url : Option String
  deriving DecidableEq, Repr

/-- Request body of `POST /auth/login` (class `LoginPayload`). -/
structure LoginPayload where
  name : String
  password : String
  deriving DecidableEq, Repr

/-- Python `str.lower()`: lower-case every character. -/
def py_lower (s : String) : String :=
  String.mk (s.data.map Char.toLower)

/-- Python `str.strip()`: remove leading and trailing whitespace. -/
def py_strip (s : String) : String :=
  String.mk
    (((s.data.dropWhile Char.isWhitespace).reverse.dropWhile
        Char.isWhitespace).reverse)

/-- Python string slicing `s[:n]`: the first `n` characters. -/
def py_take (s : String) (n : Nat) : String :=
  String.mk (s.data.take n)

/-- A Python value that is a string or `None`, rendered into JSON. -/
def optStrToJ : Option String → JValue
  | some s => JValue.s s
  | none => JValue.null

/-- Modelled from the spec: `create_document` from the missing
`database` module "serializes the given record to the store's native
document representation and inserts it; returns the store-assigned
identifier as a string" (section 4.1).  The fresh identifier `newId`
is the store's opaque choice, passed in explicitly; the returned id is
its decimal rendering, the same rendering `str(_id)` produces. -/
def create_document (col : List Doc) (acc : Account) (newId : Nat) :
    String × List Doc :=
  (toString newId,
   col ++ [{ _id := newId, name := some acc.name, email := some acc.email,
             password_hash := some acc.password_hash,
             avatar_url := acc.avatar_url, onboarded := some acc.onboarded }])

/-- Modelled from the spec: `find_one` "returns the first matching
document or an absence signal" (section 4.1), here for the filter
`{"$or": [{"email": email}, {"name": name}]}` of `main.py` line 95. -/
def find_one_or (col : List Doc) (email name : String) : Option Doc :=
  col.find? fun d => d.email == some email || d.name == some name

/-- Modelled from the spec: `find_one` for the filter
`{"name": n}` of `main.py` line 124. -/
def find_one_name (col : List Doc) (n : String) : Option Doc :=
  col.find? fun d => d.name == some n

/-- Handler of `POST /auth/signup` (`main.py` lines 86-115).  Returns
the HTTP outcome together with the resulting state of the `account`
collection (unchanged on every error path, since `raise` aborts the
handler before the insert). -/
def signup (ctx : CryptContext) (db : Option (List Doc)) (newId : Nat)
    (payload : SignupPayload) :
    Except HTTPError JObject × Option (List Doc) :=
  match db with
  | none => (Except.error ⟨500, "Database not available"⟩, none)
  | some col =>
    let name := py_strip payload.name
    let email := py_strip (py_lower payload.email)
    match find_one_or col email name with
    | some _ =>
        (Except.error ⟨400, "Account with this email or name already exists"⟩,
         some col)
    | none =>
        let password_hash := ctx.hash payload.password
        let account : Account :=
          { name := name, email := email, password_hash := password_hash,
            avatar_url := payload.avatar_url, onboarded := false }
        let res := create_document col account newId
        (Except.ok
          [("id", JValue.s res.1),
           ("name", JValue.s account.name),
           ("email", JValue.s account.email),
           ("avatar_url", optStrToJ account.avatar_url),
           ("onboarded", JValue.b account.onboarded)],
         some res.2)

/-- Handler of `POST /auth/login` (`main.py` lines 118-137). -/
def login (ctx : CryptContext) (db : Option (List Doc))
    (payload : LoginPayload) : Except HTTPError JObject :=
  match db with
  | none => Except.error ⟨500, "Database not available"⟩
  | some col =>
    match find_one_name col (py_strip payload.name) with
    | none => Except.error ⟨401, "Invalid name or password"⟩
    | some doc =>
        if ctx.verify payload.password (doc.password_hash.getD "") then
          Except.ok
            [("id", JValue.s (toString doc._id)),
             ("name", optStrToJ doc.name),
             ("email", optStrToJ doc.email),
             ("avatar_url", optStrToJ doc.avatar_url),
             ("onboarded", JValue.b (doc.onboarded.getD false))]
        else Except.error ⟨401, "Invalid name or password"⟩

/-- The environment `GET /test` observes: whether the handle `db` is
non-`None`, whether it has a `name` attribute and its value, the
outcome of `db.list_collection_names()` (which may raise, carrying the
exception text), and whether the two environment variables are set to
truthy values. -/
structure TestEnv where
  dbAvailable : Bool
  dbHasName : Bool
  dbName : String
  listResult : Except String (List String)
  databaseUrlSet : Bool
  databaseNameSet : Bool

/-- The diagnostic object returned by `GET /test`. -/
structure TestResponse where
  backend : String
  database : String
  database_url : JValue
  database_name : JValue
  connection_status : String
  collections : List String
  deriving DecidableEq, Repr

/-- Handler of `GET /test` (`main.py` lines 33-68).  The only modelled
operation that can raise is `list_collection_names`, and it sits inside
the inner `try`; the outer `except` is therefore unreachable in the
model.  The dict updates are performed in source order, in particular
the final unconditional overwrite of `database_url` and
`database_name` from the environment flags (lines 64-66). -/
def test_database (env : TestEnv) : TestResponse :=
  let r : TestResponse :=
    { backend := "✅ Running", database := "❌ Not Available",
      database_url := JValue.null, database_name := JValue.null,
      connection_status := "Not Connected", collections := [] }
  let r :=
    if env.dbAvailable then
      let r :=
        { r with database := "✅ Available",
                 database_url := JValue.s "✅ Configured",
                 database_name := JValue.s
                   (if env.dbHasName then env.dbName else "✅ Connected"),
                 connection_status := "Connected" }
      match env.listResult with
      | Except.ok cols =>
          { r with collections := cols.take 10,
                   database := "✅ Connected & Working" }
      | Except.error e =>
          { r with database := "⚠️  Connected but Error: " ++ py_take e 50 }
    else
      { r with database := "⚠️  Available but not initialized" }
  let urlFlag := JValue.s (if env.databaseUrlSet then "✅ Set" else "❌ Not Set")
  let nameFlag := JValue.s (if env.databaseNameSet then "✅ Set" else "❌ Not Set")
  let r := { r with database_url := urlFlag }
  { r with database_name := nameFlag }

/-- A concrete hashing scheme used to instantiate theorems: prefixing
with a marker character, verified by re-hashing and comparing. -/
def wCtx : CryptContext :=
  ⟨fun s => "#" ++ s, fun p h => h == "#" ++ p⟩

/-- The concrete account document `signup` under `wCtx` inserts for
the payload `⟨" alice ", "Alice@Example.com ", "pw", none⟩` and the
store-assigned identifier `7`. -/
def wDoc : Doc :=
  ⟨7, some "alice", some "alice@example.com", some "#pw", none, some false⟩

/-- A concrete account document whose `password_hash` field is absent. -/
def wDocNoHash : Doc :=
  ⟨9, some "carol", some "c@d.e", none, none, none⟩

/-- The concrete response body of the signup producing `wDoc`. -/
def wResp : JObject :=
  [("id", JValue.s "7"), ("name", JValue.s "alice"),
   ("email", JValue.s "alice@example.com"), ("avatar_url", JValue.null),
   ("onboarded", JValue.b false)]

/-- The document the success branch of `signup` inserts. -/
def signupDoc (ctx : CryptContext) (newId : Nat) (p : SignupPayload) : Doc :=
  { _id := newId, name := some (py_strip p.name),
    email := some (py_strip (py_lower p.email)),
    password_hash := some (ctx.hash p.password),
    avatar_url := p.avatar_url, onboarded := some false }

/-- The response body the success branch of `signup` returns. -/
def signupResp (newId : Nat) (p : SignupPayload) : JObject :=
  [("id", JValue.s (toString newId)),
   ("name", JValue.s (py_strip p.name)),
   ("email", JValue.s (py_strip (py_lower p.email))),
   ("avatar_url", optStrToJ p.avatar_url),
   ("onboarded", JValue.b false)]

/-- Branch structure of `signup` on an available database. -/
theorem signup_some_eq (ctx : CryptContext) (col : List Doc) (newId : Nat)
    (p : SignupPayload) :
    signup ctx (some col) newId p =
      match find_one_or col (py_strip (py_lower p.email)) (py_strip p.name) with
      | some _ =>
          (Except.error ⟨400, "Account with this email or name already exists"⟩,
           some col)
      | none =>
          (Except.ok (signupResp newId p),
           some (col ++ [signupDoc ctx newId p])) := by
  cases h : find_one_or col (py_strip (py_lower p.email)) (py_strip p.name) with
  | none =>
      simp only [signup, h, create_document, signupResp, signupDoc]
  | some d =>
      simp only [signup, h]

/-- Branch structure of `login` on an available database. -/
theorem login_some_eq (ctx : CryptContext) (col : List Doc)
    (pl : LoginPayload) :
    login ctx (some col) pl =
      match find_one_name col (py_strip pl.name) with
      | none => Except.error ⟨401, "Invalid name or password"⟩
      | some doc =>
          if ctx.verify pl.password (doc.password_hash.getD "") then
            Except.ok
              [("id", JValue.s (toString doc._id)),
               ("name", optStrToJ doc.name),
               ("email", optStrToJ doc.email),
               ("avatar_url", optStrToJ doc.avatar_url),
               ("onboarded", JValue.b (doc.onboarded.getD false))]
          else Except.error ⟨401, "Invalid name or password"⟩ := rfl

/-- C6: with an unavailable database handle, both `POST /auth/signup`
and `POST /auth/login` fail with status 500 and detail
"Database not available", and signup leaves the (absent) state
untouched: no read or write is performed. -/
theorem signup_login_db_unavailable (ctx : CryptContext) (newId : Nat)
    (p : SignupPayload) (pl : LoginPayload) :
    signup ctx none newId p =
      (Except.error ⟨500, "Database not available"⟩, none) ∧
    login ctx none pl = Except.error ⟨500, "Database not available"⟩ :=
  ⟨rfl, rfl⟩

/-- C5: when the account collection already holds a document whose
`name` equals the normalized name or whose `email` equals the
normalized email, `POST /auth/signup` fails with status 400 and detail
"Account with this email or name already exists", leaving the
collection unchanged. -/
theorem signup_conflict (ctx : CryptContext) (col : List Doc) (newId : Nat)
    (p : SignupPayload) (d : Doc) (hd : d ∈ col)
    (hm : d.name = some (py_strip p.name) ∨
      d.email = some (py_strip (py_lower p.email))) :
    signup ctx (some col) newId p =
      (Except.error ⟨400, "Account with this email or name already exists"⟩,
       some col) := by
  have hsome :
      (find_one_or col (py_strip (py_lower p.email)) (py_strip p.name)).isSome := by
    rw [find_one_or, List.find?_isSome]
    refine ⟨d, hd, ?_⟩
    rcases hm with h | h <;> simp [h]
  rcases hfo : find_one_or col (py_strip (py_lower p.email)) (py_strip p.name)
    with _ | d2
  · rw [hfo] at hsome; simp at hsome
  · rw [signup_some_eq, hfo]

/-- C5 witness: a duplicate-name signup against a singleton collection
is rejected with the 400 conflict error. -/
theorem signup_conflict_witness :
    signup wCtx (some [wDoc]) 8 ⟨" alice ", "other@x.y", "pw2", none⟩ =
      (Except.error ⟨400, "Account with this email or name already exists"⟩,
       some [wDoc]) :=
  signup_conflict wCtx [wDoc] 8 ⟨" alice ", "other@x.y", "pw2", none⟩ wDoc
    (by decide) (Or.inl (by decide))

/-- C3: the login failure for an unknown trimmed name and the login
failure for a present name with a failing password verification are
the same response: status 401 with detail "Invalid name or password". -/
theorem login_failures_indistinguishable (ctx : CryptContext)
    (col : List Doc) (pl1 pl2 : LoginPayload) (d : Doc)
    (h1 : find_one_name col (py_strip pl1.name) = none)
    (h2 : find_one_name col (py_strip pl2.name) = some d)
    (h3 : ctx.verify pl2.password (d.password_hash.getD "") = false) :
    login ctx (some col) pl1 =
      Except.error ⟨401, "Invalid name or password"⟩ ∧
    login ctx (some col) pl2 =
      Except.error ⟨401, "Invalid name or password"⟩ ∧
    login ctx (some col) pl1 = login ctx (some col) pl2 := by
  have e1 : login ctx (some col) pl1 =
      Except.error ⟨401, "Invalid name or password"⟩ := by
    rw [login_some_eq, h1]
  have e2 : login ctx (some col) pl2 =
      Except.error ⟨401, "Invalid name or password"⟩ := by
    rw [login_some_eq, h2]
    simp [h3]
  exact ⟨e1, e2, e1.trans e2.symm⟩

/-- C3 witness: against a singleton collection, an unknown-name login
and a wrong-password login produce the identical 401 response. -/
theorem login_failures_indistinguishable_witness :
    login wCtx (some [wDoc]) ⟨"bob", "pw"⟩ =
      Except.error ⟨401, "Invalid name or password"⟩ ∧
    login wCtx (some [wDoc]) ⟨"alice", "wrong"⟩ =
      Except.error ⟨401, "Invalid name or password"⟩ ∧
    login wCtx (some [wDoc]) ⟨"bob", "pw"⟩ =
      login wCtx (some [wDoc]) ⟨"alice", "wrong"⟩ :=
  login_failures_indistinguishable wCtx [wDoc] ⟨"bob", "pw"⟩
    ⟨"alice", "wrong"⟩ wDoc (by decide) (by decide) (by decide)

/-- C9: when the stored document found for the trimmed login name has
no `password_hash` field, `login` does not take the absent-account
branch: it calls the verification function with the empty string as
the stored hash, and only returns the clean 401 response when that
call returns `false`. -/
theorem login_missing_hash (ctx : CryptContext) (col : List Doc)
    (pl : LoginPayload) (d : Doc)
    (hfind : find_one_name col (py_strip pl.name) = some d)
    (hnone : d.password_hash = none) :
    login ctx (some col) pl =
      if ctx.verify pl.password "" then
        Except.ok
          [("id", JValue.s (toString d._id)),
           ("name", optStrToJ d.name),
           ("email", optStrToJ d.email),
           ("avatar_url", optStrToJ d.avatar_url),
           ("onboarded", JValue.b (d.onboarded.getD false))]
      else Except.error ⟨401, "Invalid name or password"⟩ := by
  rw [login_some_eq, hfind]
  simp [hnone]

/-- C9 witness: logging in against a document without a stored hash
verifies the password against the empty string. -/
theorem login_missing_hash_witness :
    login wCtx (some [wDocNoHash]) ⟨"carol", "pw"⟩ =
      if wCtx.verify "pw" "" then
        Except.ok
          [("id", JValue.s (toString wDocNoHash._id)),
           ("name", optStrToJ wDocNoHash.name),
           ("email", optStrToJ wDocNoHash.email),
           ("avatar_url", optStrToJ wDocNoHash.avatar_url),
           ("onboarded", JValue.b (wDocNoHash.onboarded.getD false))]
      else Except.error ⟨401, "Invalid name or password"⟩ :=
  login_missing_hash wCtx [wDocNoHash] ⟨"carol", "pw"⟩ wDocNoHash
    (by decide) (by decide)

/-- C8: whenever `signup` fails, the account collection handle is
returned unchanged, and the whole outcome is independent of the
hashing context, so in particular no password hash enters the result:
the failure paths run before `pwd_context.hash` is reached. -/
theorem signup_failure_atomic (ctx : CryptContext) (db0 : Option (List Doc))
    (newId : Nat) (p : SignupPayload) (err : HTTPError)
    (hs : (signup ctx db0 newId p).1 = Except.error err) :
    (signup ctx db0 newId p).2 = db0 ∧
    ∀ ctx2 : CryptContext, signup ctx2 db0 newId p = signup ctx db0 newId p := by
  cases db0 with
  | none => exact ⟨rfl, fun ctx2 => rfl⟩
  | some col =>
    cases hfo : find_one_or col (py_strip (py_lower p.email)) (py_strip p.name)
      with
    | none =>
      rw [signup_some_eq, hfo] at hs
      simp at hs
    | some d =>
      constructor
      · rw [signup_some_eq, hfo]
      · intro ctx2
        rw [signup_some_eq, hfo, signup_some_eq, hfo]

/-- C8 witness: a conflicting signup fails atomically; the collection
is unchanged and the outcome does not depend on the hash function. -/
theorem signup_failure_atomic_witness :
    (signup wCtx (some [wDoc]) 8 ⟨"alice", "other@x.y", "pw2", none⟩).2 =
      some [wDoc] ∧
    ∀ ctx2 : CryptContext,
      signup ctx2 (some [wDoc]) 8 ⟨"alice", "other@x.y", "pw2", none⟩ =
        signup wCtx (some [wDoc]) 8 ⟨"alice", "other@x.y", "pw2", none⟩ :=
  signup_failure_atomic wCtx (some [wDoc]) 8 ⟨"alice", "other@x.y", "pw2", none⟩
    ⟨400, "Account with this email or name already exists"⟩ rfl

/-- C2: a successful `signup` response carries exactly the fields
`id`, `name`, `email`, `avatar_url`, `onboarded` in that order, with
`onboarded` equal to `false`; it has no `password_hash` and no
`password` field, and the whole response is unchanged if the raw
password is replaced by any other string. -/
theorem signup_success_response_shape (ctx : CryptContext)
    (db0 : Option (List Doc)) (newId : Nat) (p : SignupPayload)
    (resp : JObject) (db1 : Option (List Doc))
    (hs : signup ctx db0 newId p = (Except.ok resp, db1)) :
    resp.map Prod.fst = ["id", "name", "email", "avatar_url", "onboarded"] ∧
    resp.lookup "onboarded" = some (JValue.b false) ∧
    resp.lookup "password_hash" = none ∧
    resp.lookup "password" = none ∧
    ∀ pw : String,
      (signup ctx db0 newId { p with password := pw }).1 = Except.ok resp := by
  cases db0 with
  | none => simp [signup] at hs
  | some col =>
    cases hfo : find_one_or col (py_strip (py_lower p.email)) (py_strip p.name)
      with
    | some d =>
      rw [signup_some_eq, hfo] at hs
      simp at hs
    | none =>
      rw [signup_some_eq, hfo] at hs
      obtain ⟨hresp, hdb⟩ := Prod.mk.injEq .. ▸ hs
      obtain rfl : resp = signupResp newId p := (Except.ok.injEq .. ▸ hresp).symm
      refine ⟨rfl, rfl, rfl, rfl, fun pw => ?_⟩
      rw [show ({ p with password := pw } : SignupPayload).email = p.email
            from rfl,
          show ({ p with password := pw } : SignupPayload).name = p.name
            from rfl] at hfo ⊢
      rw [signup_some_eq, hfo]
      rfl

/-- C2 witness: the concrete signup of `wDoc` returns exactly the five
fields with `onboarded = false`, no password material, and the same
body for any raw password. -/
theorem signup_success_response_shape_witness :
    wResp.map Prod.fst = ["id", "name", "email", "avatar_url", "onboarded"] ∧
    wResp.lookup "onboarded" = some (JValue.b false) ∧
    wResp.lookup "password_hash" = none ∧
    wResp.lookup "password" = none ∧
    ∀ pw : String,
      (signup wCtx (some []) 7
        (⟨" alice ", "Alice@Example.com ", pw, none⟩ : SignupPayload)).1 =
        Except.ok wResp :=
  signup_success_response_shape wCtx (some []) 7
    ⟨" alice ", "Alice@Example.com ", "pw", none⟩ wResp (some [wDoc]) rfl

/-- C4: a successful signup returns the trimmed name and the
lower-cased trimmed email, and appends to the collection a document
storing exactly those normalized values. -/
theorem signup_normalizes (ctx : CryptContext) (db0 : Option (List Doc))
    (newId : Nat) (p : SignupPayload) (resp : JObject)
    (db1 : Option (List Doc))
    (hs : signup ctx db0 newId p = (Except.ok resp, db1)) :
    resp.lookup "name" = some (JValue.s (py_strip p.name)) ∧
    resp.lookup "email" = some (JValue.s (py_strip (py_lower p.email))) ∧
    (signupDoc ctx newId p).name = some (py_strip p.name) ∧
    (signupDoc ctx newId p).email = some (py_strip (py_lower p.email)) ∧
    ∃ col : List Doc, db0 = some col ∧
      db1 = some (col ++ [signupDoc ctx newId p]) := by
  cases db0 with
  | none => simp [signup] at hs
  | some col =>
    cases hfo : find_one_or col (py_strip (py_lower p.email)) (py_strip p.name)
      with
    | some d =>
      rw [signup_some_eq, hfo] at hs
      simp at hs
    | none =>
      rw [signup_some_eq, hfo] at hs
      obtain ⟨hresp, hdb⟩ := Prod.mk.injEq .. ▸ hs
      obtain rfl : resp = signupResp newId p := (Except.ok.injEq .. ▸ hresp).symm
      exact ⟨rfl, rfl, rfl, rfl, col, rfl, hdb.symm⟩

/-- C4 witness: signing up with email `"Alice@Example.com "` stores
and returns `"alice@example.com"`. -/
theorem signup_normalizes_witness :
    wResp.lookup "name" = some (JValue.s "alice") ∧
    wResp.lookup "email" = some (JValue.s "alice@example.com") ∧
    (signupDoc wCtx 7 ⟨" alice ", "Alice@Example.com ", "pw", none⟩).name =
      some "alice" ∧
    (signupDoc wCtx 7 ⟨" alice ", "Alice@Example.com ", "pw", none⟩).email =
      some "alice@example.com" ∧
    ∃ col : List Doc, (some [] : Option (List Doc)) = some col ∧
      some [wDoc] = some
        (col ++ [signupDoc wCtx 7 ⟨" alice ", "Alice@Example.com ", "pw", none⟩]) :=
  signup_normalizes wCtx (some []) 7
    ⟨" alice ", "Alice@Example.com ", "pw", none⟩ wResp (some [wDoc]) rfl

/-- C1: a successful signup followed by a login with the same raw name
and password (against the resulting collection, with no interference)
succeeds and returns the same stringified id that signup returned,
together with the stored name, email, avatar_url and onboarded,
provided the hashing scheme verifies its own hashes. -/
theorem signup_login_roundtrip (ctx : CryptContext) (col col2 : List Doc)
    (newId : Nat) (p : SignupPayload) (resp : JObject)
    (hv : ctx.verify p.password (ctx.hash p.password) = true)
    (hs : signup ctx (some col) newId p = (Except.ok resp, some col2)) :
    resp.lookup "id" = some (JValue.s (toString newId)) ∧
    login ctx (some col2) ⟨p.name, p.password⟩ =
      Except.ok
        [("id", JValue.s (toString newId)),
         ("name", JValue.s (py_strip p.name)),
         ("email", JValue.s (py_strip (py_lower p.email))),
         ("avatar_url", optStrToJ p.avatar_url),
         ("onboarded", JValue.b false)] := by
  cases hfo : find_one_or col (py_strip (py_lower p.email)) (py_strip p.name)
    with
  | some d =>
    rw [signup_some_eq, hfo] at hs
    simp at hs
  | none =>
    rw [signup_some_eq, hfo] at hs
    obtain ⟨hresp, hdb⟩ := Prod.mk.injEq .. ▸ hs
    obtain rfl : resp = signupResp newId p := (Except.ok.injEq .. ▸ hresp).symm
    obtain rfl : col2 = col ++ [signupDoc ctx newId p] :=
      (Option.some.injEq .. ▸ hdb).symm
    refine ⟨rfl, ?_⟩
    have hcol : List.find? (fun d => d.name == some (py_strip p.name)) col =
        none := by
      rw [List.find?_eq_none]
      intro x hx hpx
      rw [find_one_or, List.find?_eq_none] at hfo
      exact hfo x hx (by simp_all)
    have hfind : find_one_name (col ++ [signupDoc ctx newId p])
        (py_strip p.name) = some (signupDoc ctx newId p) := by
      rw [find_one_name, List.find?_append, hcol]
      simp [signupDoc]
    rw [login_some_eq]
    simp only [LoginPayload.name] at *
    rw [hfind]
    simp [signupDoc, hv, optStrToJ]

/-- C1 witness: the concrete signup of `wDoc` under id 7 round-trips
through login with the raw credentials. -/
theorem signup_login_roundtrip_witness :
    wResp.lookup "id" = some (JValue.s "7") ∧
    login wCtx (some [wDoc]) ⟨" alice ", "pw"⟩ =
      Except.ok
        [("id", JValue.s "7"),
         ("name", JValue.s "alice"),
         ("email", JValue.s "alice@example.com"),
         ("avatar_url", JValue.null),
         ("onboarded", JValue.b false)] :=
  signup_login_roundtrip wCtx [] [wDoc] 7
    ⟨" alice ", "Alice@Example.com ", "pw", none⟩ wResp rfl rfl

/-- C7: for every internal state, `GET /test` returns a diagnostic
object: the backend field always reads "Running", the environment
variables are reported as set/not-set flag strings rather than their
values, and at most 10 collection names are included. -/
theorem test_database_diagnostic_safe (env : TestEnv) :
    (test_database env).backend = "✅ Running" ∧
    ((test_database env).database_url = JValue.s "✅ Set" ∨
      (test_database env).database_url = JValue.s "❌ Not Set") ∧
    ((test_database env).database_name = JValue.s "✅ Set" ∨
      (test_database env).database_name = JValue.s "❌ Not Set") ∧
    (test_database env).collections.length ≤ 10 := by
  obtain ⟨avail, hasName, dbName, listR, u, n⟩ := env
  refine ⟨?_, ?_, ?_, ?_⟩ <;>
    cases avail <;> rcases listR with e | cols <;> cases u <;> cases n <;>
      simp [test_database, List.length_take]

/-- C10: the final `database_url` and `database_name` fields of the
`GET /test` response are the set/not-set flags of the two environment
variables alone, unconditionally overwriting the connection-derived
values assigned earlier in the handler. -/
theorem test_database_env_flag_overwrite (env env2 : TestEnv)
    (hu : env.databaseUrlSet = env2.databaseUrlSet)
    (hn : env.databaseNameSet = env2.databaseNameSet) :
    (test_database env).database_url =
      JValue.s (if env.databaseUrlSet then "✅ Set" else "❌ Not Set") ∧
    (test_database env).database_name =
      JValue.s (if env.databaseNameSet then "✅ Set" else "❌ Not Set") ∧
    (test_database env).database_url = (test_database env2).database_url ∧
    (test_database env).database_name = (test_database env2).database_name := by
  have h1 : ∀ e : TestEnv, (test_database e).database_url =
      JValue.s (if e.databaseUrlSet then "✅ Set" else "❌ Not Set") :=
    fun e => rfl
  have h2 : ∀ e : TestEnv, (test_database e).database_name =
      JValue.s (if e.databaseNameSet then "✅ Set" else "❌ Not Set") :=
    fun e => rfl
  refine ⟨h1 env, h2 env, ?_, ?_⟩
  · rw [h1 env, h1 env2, hu]
  · rw [h2 env, h2 env2, hn]

/-- C10 witness: two environments agreeing only on the flags, one with
a working connection and one fully broken, yield the same final
`database_url` and `database_name` fields. -/
theorem test_database_env_flag_overwrite_witness :
    (test_database ⟨true, true, "db", Except.ok ["a"], true, false⟩).database_url =
      JValue.s "✅ Set" ∧
    (test_database ⟨true, true, "db", Except.ok ["a"], true, false⟩).database_name =
      JValue.s "❌ Not Set" ∧
    (test_database ⟨true, true, "db", Except.ok ["a"], true, false⟩).database_url =
      (test_database ⟨false, false, "", Except.error "x", true, false⟩).database_url ∧
    (test_database ⟨true, true, "db", Except.ok ["a"], true, false⟩).database_name =
      (test_database ⟨false, false, "", Except.error "x", true, false⟩).database_name :=
  test_database_env_flag_overwrite
    ⟨true, true, "db", Except.ok ["a"], true, false⟩
    ⟨false, false, "", Except.error "x", true, false⟩ rfl rfl
